import Mathlib

/-!
Shallow embedding of the virtio-gpu display driver
(`drivers/virtio/virtio_gpu.c`) and of the pixel-format helper
(`include/video_format.h`), together with proofs of the specified
properties of bring-up, frame synchronisation, the transport adapter,
and the two helpers.

The device side of every request/response exchange is abstracted as an
`Outcome` supplied by the environment: either the virtqueue submission
fails (`addFail`, the error code `virtqueue_add` returned), or the
exchange completes with a response header carrying a 32-bit type and a
completion byte length.  Machine integers are modelled as `Nat` with
explicit `% 2 ^ w` at the points where the C code can wrap (the u64
fence counter, the u32 response type, the u32 scanout mask).
-/

/-- Modelled from the spec: number of scanout descriptors in a
GET_DISPLAY_INFO response ("up to N scanout descriptors"); the value is
the one fixed by the virtio-gpu header, which is not under `src/`. -/
def VIRTIO_GPU_MAX_SCANOUTS : Nat := 16

/-- Modelled from the spec: command type consumed by the core
(GET_DISPLAY_INFO); numeric value from the virtio-gpu header, not under
`src/`. -/
def VIRTIO_GPU_CMD_GET_DISPLAY_INFO : Nat := 0x0100

/-- Modelled from the spec: command type RESOURCE_CREATE_2D. -/
def VIRTIO_GPU_CMD_RESOURCE_CREATE_2D : Nat := 0x0101

/-- Modelled from the spec: command type SET_SCANOUT. -/
def VIRTIO_GPU_CMD_SET_SCANOUT : Nat := 0x0103

/-- Modelled from the spec: command type RESOURCE_FLUSH. -/
def VIRTIO_GPU_CMD_RESOURCE_FLUSH : Nat := 0x0104

/-- Modelled from the spec: command type TRANSFER_TO_HOST_2D. -/
def VIRTIO_GPU_CMD_TRANSFER_TO_HOST_2D : Nat := 0x0105

/-- Modelled from the spec: command type RESOURCE_ATTACH_BACKING. -/
def VIRTIO_GPU_CMD_RESOURCE_ATTACH_BACKING : Nat := 0x0106

/-- Modelled from the spec: expected response type "no-data-OK". -/
def VIRTIO_GPU_RESP_OK_NODATA : Nat := 0x1100

/-- Modelled from the spec: expected response type OK_DISPLAY_INFO. -/
def VIRTIO_GPU_RESP_OK_DISPLAY_INFO : Nat := 0x1101

/-- Modelled from the spec: the fence flag set in the control header of
a fenced request. -/
def VIRTIO_GPU_FLAG_FENCE : Nat := 1

/-- Modelled from the spec: the fixed pixel format used by
RESOURCE_CREATE_2D. -/
def VIRTIO_GPU_FORMAT_B8G8R8X8_UNORM : Nat := 2

/-- The errno used by every failing check in the driver (`-EINVAL`). -/
def EINVAL : Int := 22

/-- Modelled from the spec: byte size of `struct virtio_gpu_ctrl_hdr`
(the header layout `{type:32, flags:32, fence_id:64, context_id:32,
ring_index:8+pad}`). -/
def szCtrlHdr : Nat := 24

/-- Modelled from the spec: byte size of
`struct virtio_gpu_resp_display_info` (header plus N descriptors). -/
def szRespDisplayInfo : Nat := szCtrlHdr + VIRTIO_GPU_MAX_SCANOUTS * 24

/-- Modelled from the spec: byte size of
`struct virtio_gpu_resource_create_2d`. -/
def szResourceCreate2d : Nat := szCtrlHdr + 16

/-- Modelled from the spec: byte size of
`struct virtio_gpu_resource_attach_backing`. -/
def szResourceAttachBacking : Nat := szCtrlHdr + 8

/-- Modelled from the spec: byte size of `struct virtio_gpu_mem_entry`. -/
def szMemEntry : Nat := 16

/-- Modelled from the spec: byte size of
`struct virtio_gpu_set_scanout`. -/
def szSetScanout : Nat := szCtrlHdr + 24

/-- Modelled from the spec: byte size of
`struct virtio_gpu_transfer_to_host_2d`. -/
def szTransferToHost2d : Nat := szCtrlHdr + 32

/-- Modelled from the spec: byte size of
`struct virtio_gpu_resource_flush`. -/
def szResourceFlush : Nat := szCtrlHdr + 24

/-- `struct virtio_gpu_priv`: the per-device driver state
(`vq` is owned by the abstracted transport and not modelled). -/
structure GpuPriv where
  scanout_res_id : Nat
  fence_id : Nat
  in_sync : Bool
deriving DecidableEq

/-- The zero-initialised `priv` a freshly bound device starts with
(driver-model private data is zeroed on allocation). -/
def gpuPrivInit : GpuPriv := { scanout_res_id := 0, fence_id := 0, in_sync := false }

/-- `struct virtio_gpu_rect`. -/
structure Rect where
  x : Nat
  y : Nat
  width : Nat
  height : Nat
deriving DecidableEq

/-- The command-specific part of a request buffer handed to
`virtio_gpu_do_req` (the fields the driver writes, after the control
header). -/
inductive ReqPayload where
  | hdrOnly
  | create2d (resource_id format width height : Nat)
  | attachBacking (resource_id nr_entries addr length : Nat)
  | setScanout (r : Rect) (scanout_id resource_id : Nat)
  | transfer2d (r : Rect) (offset resource_id : Nat)
  | resFlush (r : Rect) (resource_id : Nat)
deriving DecidableEq

/-- One request as assembled by `virtio_gpu_do_req`: the control-header
fields the adapter populates, the payload the caller filled in, and
whether the request actually reached the queue (`issued = false` when
`virtqueue_add` failed before the kick). -/
structure Req where
  cmd : Nat
  flags : Nat
  fence_id : Nat
  ctx_id : Nat
  ring_idx : Nat
  payload : ReqPayload
  issued : Bool
deriving DecidableEq

/-- The device/transport side of one exchange: either `virtqueue_add`
fails with an error code, or the exchange completes with a response
header of type `t` and a completion length `len`. -/
inductive Outcome where
  | addFail (e : Int)
  | complete (t : Nat) (len : Nat)
deriving DecidableEq

/-- The `int` value `virtio_gpu_do_req` returns for a given outcome:
the `virtqueue_add` error, or the decoded (u32) response type. -/
def doReqRet (out : Outcome) : Int :=
  match out with
  | .addFail e => e
  | .complete t _ => Int.ofNat (t % 2 ^ 32)

/-- Whether the request was submitted and kicked. -/
def issuedOf (out : Outcome) : Bool :=
  match out with
  | .addFail _ => false
  | .complete _ _ => true

/-- `virtio_gpu_do_req`: populates the control header (assigning and
post-incrementing the u64 fence counter when `flush` is set, zeroing
the flags and fence otherwise), submits the two-descriptor chain, busy
waits, and returns the decoded response type.  A completion length that
differs from `outSize` is only logged.  Returns the updated device
state and the request that was assembled. -/
def virtio_gpu_do_req (priv : GpuPriv) (cmd : Nat) (payload : ReqPayload)
    (inSize outSize : Nat) (flush : Bool) (out : Outcome) :
    Int × GpuPriv × Req :=
  let flags := if flush then VIRTIO_GPU_FLAG_FENCE else 0
  let fence := if flush then priv.fence_id else 0
  let priv' := if flush then { priv with fence_id := (priv.fence_id + 1) % 2 ^ 64 } else priv
  (doReqRet out, priv',
    { cmd := cmd, flags := flags, fence_id := fence, ctx_id := 0, ring_idx := 0,
      payload := payload, issued := issuedOf out })

/-- The request buffers `virtio_gpu_probe` allocates. -/
inductive Buf where
  | dispInfo
  | resCreate2d
  | resBuf
  | setScanout
deriving DecidableEq

/-- Events of a bring-up run: buffer allocation, buffer release, and
request/response exchanges, in program order. -/
inductive Ev where
  | alloc (b : Buf)
  | free (b : Buf)
  | req (r : Req)
deriving DecidableEq

/-- The environment a bring-up run executes in: the framebuffer
reservation made by the video uclass, the configured sizes
(`CONFIG_VIRTIO_GPU_SIZE_X/Y`), the result of `virtio_find_vqs`, and
the device's responses (the `enabled` flags decoded from the
GET_DISPLAY_INFO response, indexed by scanout). -/
structure ProbeEnv where
  platBase : Nat
  platSize : Nat
  cfgX : Nat
  cfgY : Nat
  findVqsRet : Int
  dispOut : Outcome
  enabled : Nat → Bool
  createOut : Outcome
  attachOut : Outcome
  scanoutOut : Nat → Outcome

/-- The scanout bitmask accumulated by the probe loop over descriptors
`0 ≤ i < n`: `scanout_mask |= 1 << i` for each enabled descriptor. -/
def maskOfAux (enabled : Nat → Bool) : Nat → Nat
  | 0 => 0
  | n + 1 => maskOfAux enabled n ||| (if enabled n then 1 <<< n else 0)

/-- The scanout bitmask after the full descriptor scan. -/
def maskOf (enabled : Nat → Bool) : Nat :=
  maskOfAux enabled VIRTIO_GPU_MAX_SCANOUTS

/-- Modelled from the spec: `ffs`, find-first-set, used by the
SET_SCANOUT loop ("lowest set bit first"); it is a libc/compiler
builtin, not code under `src/`.  Returns one plus the index of the
least significant set bit, and `0` for `0`. -/
def ffs (m : Nat) : Nat :=
  if h : m = 0 then 0
  else Nat.find (Nat.ne_zero_implies_bit_true h) + 1

/-- `mask &= ~(1 << a)` at `unsigned int` width: the complement is
taken in 32 bits. -/
def clearBit32 (m a : Nat) : Nat := m &&& ((2 ^ 32 - 1) ^^^ (1 <<< a))

/-- Proof carried by the loop that the u32 scanout mask fits in 32
bits. -/
def maskOf_lt_two_pow (e : Nat → Bool) : maskOf e < 2 ^ 32 := by
  have h : ∀ n, maskOfAux e n < 2 ^ n := by
    intro n
    induction n with
    | zero => simp [maskOfAux]
    | succ k ih =>
      apply Nat.or_lt_two_pow
      · exact Nat.lt_of_lt_of_le ih (Nat.pow_le_pow_right (by norm_num) (Nat.le_succ k))
      · by_cases hk : e k
        · simp only [hk, if_true, Nat.one_shiftLeft]
          exact Nat.pow_lt_pow_right (by norm_num) (Nat.lt_succ_self k)
        · simp [hk]
  exact Nat.lt_of_lt_of_le (h VIRTIO_GPU_MAX_SCANOUTS)
    (by norm_num [VIRTIO_GPU_MAX_SCANOUTS])

/-- The `while (scanout_mask)` loop of `virtio_gpu_probe`: for the
lowest set bit, send SET_SCANOUT binding the full-screen rectangle and
the created resource to that scanout index; on an unexpected response
stop with `-EINVAL`, otherwise clear the bit and continue.  Returns the
status, the device state, and the events of the iterations run. -/
def scanoutLoop (env : ProbeEnv) (priv : GpuPriv) (mask : Nat)
    (hm : mask < 2 ^ 32) : Int × GpuPriv × List Ev :=
  if h0 : mask = 0 then (0, priv, [])
  else
    let active := ffs mask - 1
    let s := virtio_gpu_do_req priv VIRTIO_GPU_CMD_SET_SCANOUT
      (ReqPayload.setScanout ⟨0, 0, env.cfgX, env.cfgY⟩ active priv.scanout_res_id)
      szSetScanout szCtrlHdr false (env.scanoutOut active)
    if s.1 ≠ Int.ofNat VIRTIO_GPU_RESP_OK_NODATA then
      (-EINVAL, s.2.1, [Ev.req s.2.2])
    else
      let rest := scanoutLoop env s.2.1 (clearBit32 mask active)
        (Nat.lt_of_le_of_lt Nat.and_le_left hm)
      (rest.1, rest.2.1, Ev.req s.2.2 :: rest.2.2)
termination_by mask
decreasing_by
  have hbit : mask.testBit (ffs mask - 1) = true := by
    simp only [ffs, dif_neg h0, Nat.add_sub_cancel]
    exact Nat.find_spec (Nat.ne_zero_implies_bit_true h0)
  have hlt32 : ffs mask - 1 < 32 := by
    have h1 : 2 ^ (ffs mask - 1) ≤ mask := Nat.testBit_implies_ge hbit
    have h2 : (2 : Nat) ^ (ffs mask - 1) < 2 ^ 32 := Nat.lt_of_le_of_lt h1 hm
    exact (Nat.pow_lt_pow_iff_right (by norm_num)).mp h2
  have hne : clearBit32 mask (ffs mask - 1) ≠ mask := by
    intro he
    have hb : (clearBit32 mask (ffs mask - 1)).testBit (ffs mask - 1) = true := by
      rw [he]; exact hbit
    rw [clearBit32, Nat.testBit_and, Nat.testBit_xor, Nat.one_shiftLeft,
      Nat.testBit_two_pow_sub_one, Nat.testBit_two_pow_self] at hb
    simp [hlt32] at hb
  exact Nat.lt_of_le_of_ne (Nat.and_le_left) hne

/-- `virtio_gpu_probe`: the bring-up sequencer.  Returns the status,
the final device state, and the event trace (allocations, releases and
exchanges in program order).  The framebuffer physical address passed
to RESOURCE_ATTACH_BACKING is `plat->base` (`virt_to_phys` is the
identity in this model). -/
def virtio_gpu_probe (env : ProbeEnv) (priv : GpuPriv) : Int × GpuPriv × List Ev :=
  if env.platBase = 0 then (-EINVAL, priv, [])
  else if env.findVqsRet < 0 then (env.findVqsRet, priv, [])
  else
    let s1 := virtio_gpu_do_req priv VIRTIO_GPU_CMD_GET_DISPLAY_INFO ReqPayload.hdrOnly
      szCtrlHdr szRespDisplayInfo false env.dispOut
    let evs1 := [Ev.alloc Buf.dispInfo, Ev.req s1.2.2]
    if s1.1 ≠ Int.ofNat VIRTIO_GPU_RESP_OK_DISPLAY_INFO then
      (-EINVAL, s1.2.1, evs1 ++ [Ev.free Buf.dispInfo])
    else
      let mask := maskOf env.enabled
      if mask = 0 then (-EINVAL, s1.2.1, evs1 ++ [Ev.free Buf.dispInfo])
      else
        let evs2 := evs1 ++ [Ev.free Buf.dispInfo]
        let priv2 := { s1.2.1 with scanout_res_id := 1 }
        let s2 := virtio_gpu_do_req priv2 VIRTIO_GPU_CMD_RESOURCE_CREATE_2D
          (ReqPayload.create2d priv2.scanout_res_id VIRTIO_GPU_FORMAT_B8G8R8X8_UNORM
            env.cfgX env.cfgY)
          szResourceCreate2d szCtrlHdr false env.createOut
        let evs3 := evs2 ++ [Ev.alloc Buf.resCreate2d, Ev.req s2.2.2]
        if s2.1 ≠ Int.ofNat VIRTIO_GPU_RESP_OK_NODATA then
          (-EINVAL, s2.2.1, evs3 ++ [Ev.free Buf.resCreate2d])
        else
          let evs4 := evs3 ++ [Ev.free Buf.resCreate2d]
          let s3 := virtio_gpu_do_req s2.2.1 VIRTIO_GPU_CMD_RESOURCE_ATTACH_BACKING
            (ReqPayload.attachBacking s2.2.1.scanout_res_id 1 env.platBase env.platSize)
            (szResourceAttachBacking + szMemEntry) szCtrlHdr false env.attachOut
          let evs5 := evs4 ++ [Ev.alloc Buf.resBuf, Ev.req s3.2.2]
          if s3.1 ≠ Int.ofNat VIRTIO_GPU_RESP_OK_NODATA then
            (-EINVAL, s3.2.1, evs5 ++ [Ev.free Buf.resBuf])
          else
            let evs6 := evs5 ++ [Ev.free Buf.resBuf]
            let lp := scanoutLoop env s3.2.1 mask (maskOf_lt_two_pow env.enabled)
            (lp.1, lp.2.1,
              evs6 ++ [Ev.alloc Buf.setScanout] ++ lp.2.2 ++ [Ev.free Buf.setScanout])

/-- The environment of one flush call: the display geometry the probe
stored in the video uclass state, and the device's responses to the two
exchanges. -/
structure SyncEnv where
  cfgX : Nat
  cfgY : Nat
  transferOut : Outcome
  flushOut : Outcome

/-- `virtio_gpu_video_sync`: the frame-sync guard.  A call while
`in_sync` is set returns `0` at once; otherwise TRANSFER_TO_HOST_2D and
RESOURCE_FLUSH are exchanged in order, both fenced, and any unexpected
response clears `in_sync` and returns `-EINVAL` without attempting the
remaining step.  Returns the status, the device state, and the requests
exchanged. -/
def virtio_gpu_video_sync (env : SyncEnv) (priv : GpuPriv) : Int × GpuPriv × List Req :=
  if priv.in_sync then (0, priv, [])
  else
    let priv1 := { priv with in_sync := true }
    let s1 := virtio_gpu_do_req priv1 VIRTIO_GPU_CMD_TRANSFER_TO_HOST_2D
      (ReqPayload.transfer2d ⟨0, 0, env.cfgX, env.cfgY⟩ 0 priv1.scanout_res_id)
      szTransferToHost2d szCtrlHdr true env.transferOut
    if s1.1 ≠ Int.ofNat VIRTIO_GPU_RESP_OK_NODATA then
      (-EINVAL, { s1.2.1 with in_sync := false }, [s1.2.2])
    else
      let s2 := virtio_gpu_do_req s1.2.1 VIRTIO_GPU_CMD_RESOURCE_FLUSH
        (ReqPayload.resFlush ⟨0, 0, env.cfgX, env.cfgY⟩ s1.2.1.scanout_res_id)
        szResourceFlush szCtrlHdr true env.flushOut
      if s2.1 ≠ Int.ofNat VIRTIO_GPU_RESP_OK_NODATA then
        (-EINVAL, { s2.2.1 with in_sync := false }, [s1.2.2, s2.2.2])
      else
        (0, { s2.2.1 with in_sync := false }, [s1.2.2, s2.2.2])

/-- One call to the transport adapter, for reasoning about arbitrary
call sequences on one device instance. -/
structure Call where
  cmd : Nat
  payload : ReqPayload
  inSize : Nat
  outSize : Nat
  flush : Bool
  out : Outcome
deriving DecidableEq

/-- Fold a sequence of adapter calls through the device state,
collecting the assembled requests. -/
def runCalls (priv : GpuPriv) : List Call → GpuPriv × List Req
  | [] => (priv, [])
  | c :: cs =>
    let s := virtio_gpu_do_req priv c.cmd c.payload c.inSize c.outSize c.flush c.out
    let r := runCalls s.2.1 cs
    (r.1, s.2.2 :: r.2)

/-- The fence ids of the fenced requests of a trace, in order. -/
def fenceIds (rs : List Req) : List Nat :=
  (rs.filter fun r => decide (r.flags ≠ 0)).map fun r => r.fence_id

/-- The scanout indices carried by the SET_SCANOUT requests of a
bring-up trace, in order. -/
def setScanoutIds (evs : List Ev) : List Nat :=
  evs.filterMap fun e =>
    match e with
    | .req r =>
      match r.payload with
      | .setScanout _ sid _ => some sid
      | _ => none
    | _ => none

/-- The SET_SCANOUT request the loop assembles for scanout `i`. -/
def mkSetScanoutReq (env : ProbeEnv) (priv : GpuPriv) (i : Nat) : Req :=
  { cmd := VIRTIO_GPU_CMD_SET_SCANOUT, flags := 0, fence_id := 0, ctx_id := 0,
    ring_idx := 0,
    payload := ReqPayload.setScanout ⟨0, 0, env.cfgX, env.cfgY⟩ i priv.scanout_res_id,
    issued := true }

/-- How many times buffer `b` is allocated in a trace. -/
def allocCount (b : Buf) : List Ev → Nat
  | [] => 0
  | Ev.alloc c :: es => (if c = b then 1 else 0) + allocCount b es
  | Ev.free _ :: es => allocCount b es
  | Ev.req _ :: es => allocCount b es

/-- How many times buffer `b` is released in a trace. -/
def freeCount (b : Buf) : List Ev → Nat
  | [] => 0
  | Ev.free c :: es => (if c = b then 1 else 0) + freeCount b es
  | Ev.alloc _ :: es => freeCount b es
  | Ev.req _ :: es => freeCount b es

/-- Whether a bring-up run gets as far as the RESOURCE_CREATE_2D step
(at which point the driver stores resource id 1, just before issuing
the request). -/
def reachesCreate (env : ProbeEnv) : Bool :=
  decide (env.platBase ≠ 0) && decide (¬ env.findVqsRet < 0) &&
  decide (doReqRet env.dispOut = Int.ofNat VIRTIO_GPU_RESP_OK_DISPLAY_INFO) &&
  decide (maskOf env.enabled ≠ 0)

/-- `struct video_rgb` of `video_format.h`: a colour, 8 bits per
component. -/
structure VideoRgb where
  r : Nat
  g : Nat
  b : Nat
deriving DecidableEq

/-- `enum video_format` of `video_format.h`. -/
inductive VideoFormat where
  | VIDEO_DEFAULT
  | VIDEO_RGB332
  | VIDEO_RGB565
  | VIDEO_RGB565_BE
  | VIDEO_XRGB8888
  | VIDEO_BGRX8888
  | VIDEO_XBGR8888
  | VIDEO_RGBA8888
  | VIDEO_XRGB2101010
  | VIDEO_XRGB2101010_BE
deriving DecidableEq

/-- 32-bit byte swap (used by the cross-endian conversions). -/
def bswap32 (n : Nat) : Nat :=
  ((n % 256) <<< 24) ||| ((n / 256 % 256) <<< 16) |||
    ((n / 65536 % 256) <<< 8) ||| (n / 16777216 % 256)

/-- `cpu_to_le32` on a host whose endianness is given by `le`. -/
def cpu_to_le32 (le : Bool) (n : Nat) : Nat :=
  if le then n % 2 ^ 32 else bswap32 (n % 2 ^ 32)

/-- `cpu_to_be32` on a host whose endianness is given by `le`. -/
def cpu_to_be32 (le : Bool) (n : Nat) : Nat :=
  if le then bswap32 (n % 2 ^ 32) else n % 2 ^ 32

/-- `video_rgb_to_pixel32` of `video_format.h`: layout first (the
`VIDEO_DEFAULT` case is selected by the host endianness `le`, mirroring
the `#ifdef __LITTLE_ENDIAN` / `__BIG_ENDIAN` alternatives; the
`VIDEO_XRGB2101010` case falls through to the empty `default`), then
the byte-order conversion. -/
def video_rgb_to_pixel32 (le : Bool) (format : VideoFormat) (rgb : VideoRgb) : Nat :=
  let val : Nat :=
    match format with
    | .VIDEO_DEFAULT =>
      if le then (rgb.r <<< 16) ||| (rgb.g <<< 8) ||| rgb.b
      else (rgb.b <<< 24) ||| (rgb.g <<< 8) ||| (rgb.r <<< 8)
    | .VIDEO_XRGB8888 => (rgb.r <<< 16) ||| (rgb.g <<< 8) ||| rgb.b
    | .VIDEO_BGRX8888 => (rgb.b <<< 24) ||| (rgb.g <<< 8) ||| (rgb.r <<< 8)
    | .VIDEO_XBGR8888 => (rgb.b <<< 16) ||| (rgb.g <<< 8) ||| rgb.b
    | .VIDEO_RGBA8888 => (rgb.r <<< 24) ||| (rgb.g <<< 16) ||| (rgb.b <<< 8) ||| 0xff
    | .VIDEO_XRGB2101010 => (rgb.r <<< 22) ||| (rgb.g <<< 12) ||| (rgb.b <<< 2)
    | .VIDEO_XRGB2101010_BE => (rgb.r <<< 22) ||| (rgb.g <<< 12) ||| (rgb.b <<< 2)
    | _ => 0
  match format with
  | .VIDEO_XRGB2101010_BE => cpu_to_be32 le val
  | _ => cpu_to_le32 le val

/-- `VNBYTES` of `video_format.h`: bytes per pixel for a
`video_log2_bpp` selector. -/
def VNBYTES (bpix : Nat) : Nat := (1 <<< bpix) / 8

/-- `VIDEO_BPP32` of `enum video_log2_bpp`. -/
def VIDEO_BPP32 : Nat := 5

/-- The video-uclass platform data `virtio_gpu_bind` fills in. -/
structure VideoUcPlat where
  base : Nat
  size : Nat
deriving DecidableEq

/-- `virtio_gpu_bind`: zeroes `plat->base` and reserves
`SIZE_X * SIZE_X * VNBYTES(VIDEO_BPP32)` bytes (the configured
horizontal size is used for both factors). -/
def virtio_gpu_bind (sizeX sizeY : Nat) : VideoUcPlat :=
  { base := 0, size := sizeX * sizeX * VNBYTES VIDEO_BPP32 }

/-- A concrete environment: display info OK with scanout 0 enabled, but
RESOURCE_CREATE_2D answered with an error type. -/
def envCreateFail : ProbeEnv :=
  { platBase := 4096, platSize := 16384, cfgX := 2, cfgY := 2, findVqsRet := 0,
    dispOut := Outcome.complete VIRTIO_GPU_RESP_OK_DISPLAY_INFO szRespDisplayInfo,
    enabled := fun i => decide (i = 0),
    createOut := Outcome.complete 0x1200 szCtrlHdr,
    attachOut := Outcome.complete VIRTIO_GPU_RESP_OK_NODATA szCtrlHdr,
    scanoutOut := fun _ => Outcome.complete VIRTIO_GPU_RESP_OK_NODATA szCtrlHdr }

/-- A concrete environment: display info OK but no scanout enabled. -/
def envNoScanout : ProbeEnv :=
  { envCreateFail with enabled := fun _ => false }

/-- A concrete environment where bring-up succeeds with exactly scanout
0 enabled. -/
def envAllOk : ProbeEnv :=
  { envCreateFail with createOut := Outcome.complete VIRTIO_GPU_RESP_OK_NODATA szCtrlHdr }

/-- A concrete flush environment whose two exchanges both succeed. -/
def syncEnvOk : SyncEnv :=
  { cfgX := 2, cfgY := 2,
    transferOut := Outcome.complete VIRTIO_GPU_RESP_OK_NODATA szCtrlHdr,
    flushOut := Outcome.complete VIRTIO_GPU_RESP_OK_NODATA szCtrlHdr }

/-- A concrete flush environment whose first exchange answers with an
error type. -/
def syncEnvTransferFail : SyncEnv :=
  { syncEnvOk with transferOut := Outcome.complete 0x1200 szCtrlHdr }

/-- A device state with a flush already in progress. -/
def privBusy : GpuPriv := { scanout_res_id := 1, fence_id := 5, in_sync := true }

/-- A device state after successful bring-up, idle. -/
def privIdle : GpuPriv := { scanout_res_id := 1, fence_id := 0, in_sync := false }

/-- A concrete sequence of adapter calls: fenced, unfenced, fenced. -/
def callsW : List Call :=
  [{ cmd := VIRTIO_GPU_CMD_TRANSFER_TO_HOST_2D, payload := ReqPayload.hdrOnly,
     inSize := szTransferToHost2d, outSize := szCtrlHdr, flush := true,
     out := Outcome.complete VIRTIO_GPU_RESP_OK_NODATA szCtrlHdr },
   { cmd := VIRTIO_GPU_CMD_GET_DISPLAY_INFO, payload := ReqPayload.hdrOnly,
     inSize := szCtrlHdr, outSize := szRespDisplayInfo, flush := false,
     out := Outcome.complete VIRTIO_GPU_RESP_OK_DISPLAY_INFO szRespDisplayInfo },
   { cmd := VIRTIO_GPU_CMD_RESOURCE_FLUSH, payload := ReqPayload.hdrOnly,
     inSize := szResourceFlush, outSize := szCtrlHdr, flush := true,
     out := Outcome.complete VIRTIO_GPU_RESP_OK_NODATA szCtrlHdr }]

/-- The events of a bring-up run that reaches the SET_SCANOUT loop,
before the loop itself. -/
def preEvs (env : ProbeEnv) : List Ev :=
  [Ev.alloc Buf.dispInfo,
   Ev.req { cmd := VIRTIO_GPU_CMD_GET_DISPLAY_INFO, flags := 0, fence_id := 0,
            ctx_id := 0, ring_idx := 0, payload := ReqPayload.hdrOnly,
            issued := issuedOf env.dispOut },
   Ev.free Buf.dispInfo,
   Ev.alloc Buf.resCreate2d,
   Ev.req { cmd := VIRTIO_GPU_CMD_RESOURCE_CREATE_2D, flags := 0, fence_id := 0,
            ctx_id := 0, ring_idx := 0,
            payload := ReqPayload.create2d 1 VIRTIO_GPU_FORMAT_B8G8R8X8_UNORM
              env.cfgX env.cfgY,
            issued := issuedOf env.createOut },
   Ev.free Buf.resCreate2d,
   Ev.alloc Buf.resBuf,
   Ev.req { cmd := VIRTIO_GPU_CMD_RESOURCE_ATTACH_BACKING, flags := 0, fence_id := 0,
            ctx_id := 0, ring_idx := 0,
            payload := ReqPayload.attachBacking 1 1 env.platBase env.platSize,
            issued := issuedOf env.attachOut },
   Ev.free Buf.resBuf]

/-! ## Bitmask and find-first-set lemmas -/

theorem maskOfAux_testBit (e : Nat → Bool) (n j : Nat) :
    (maskOfAux e n).testBit j = (decide (j < n) && e j) := by
  induction n with
  | zero => simp [maskOfAux, Nat.zero_testBit]
  | succ k ih =>
    rw [maskOfAux, Nat.testBit_or, ih]
    by_cases hj : j = k
    · subst hj
      by_cases hk : e j
      · simp [hk, Nat.one_shiftLeft, Nat.testBit_two_pow_self, Nat.lt_succ_self]
      · simp [hk, Nat.zero_testBit, Nat.lt_succ_self]
    · by_cases hk : e k
      · simp only [hk, if_true, Nat.one_shiftLeft, Nat.testBit_two_pow]
        simp [Nat.lt_succ_iff_lt_or_eq, hj, Ne.symm hj]
      · simp [hk, Nat.zero_testBit, Nat.lt_succ_iff_lt_or_eq, hj]

theorem maskOf_testBit (e : Nat → Bool) (j : Nat) :
    (maskOf e).testBit j = (decide (j < VIRTIO_GPU_MAX_SCANOUTS) && e j) :=
  maskOfAux_testBit e _ j

theorem maskOf_eq_zero (e : Nat → Bool)
    (h : ∀ i, i < VIRTIO_GPU_MAX_SCANOUTS → e i = false) : maskOf e = 0 := by
  apply Nat.zero_of_testBit_eq_false
  intro i
  rw [maskOf_testBit]
  by_cases hi : i < VIRTIO_GPU_MAX_SCANOUTS
  · simp [h i hi]
  · simp [hi]

theorem maskOf_ne_zero (e : Nat → Bool)
    (h : ∃ i, i < VIRTIO_GPU_MAX_SCANOUTS ∧ e i = true) : maskOf e ≠ 0 := by
  obtain ⟨i, hi, he⟩ := h
  intro h0
  have hb := maskOf_testBit e i
  rw [h0, Nat.zero_testBit] at hb
  simp [hi, he] at hb

theorem ffs_testBit (m : Nat) (h : m ≠ 0) : m.testBit (ffs m - 1) = true := by
  simp only [ffs, dif_neg h, Nat.add_sub_cancel]
  exact Nat.find_spec (Nat.ne_zero_implies_bit_true h)

theorem ffs_min (m j : Nat) (h : m ≠ 0) (hj : j < ffs m - 1) : m.testBit j = false := by
  simp only [ffs, dif_neg h, Nat.add_sub_cancel] at hj
  have hb := Nat.find_min (Nat.ne_zero_implies_bit_true h) hj
  simpa using hb

theorem clearBit32_testBit (m j : Nat) (h0 : m ≠ 0) (hm : m < 2 ^ 32) :
    (clearBit32 m (ffs m - 1)).testBit j = (m.testBit j && !(decide (j = ffs m - 1))) := by
  rw [clearBit32, Nat.testBit_and, Nat.testBit_xor, Nat.one_shiftLeft,
    Nat.testBit_two_pow_sub_one, Nat.testBit_two_pow]
  by_cases hj : j < 32
  · simp only [hj, decide_True, Bool.true_xor]
    by_cases he : j = ffs m - 1
    · simp [he]
    · simp [he, Ne.symm he]
  · have hmj : m.testBit j = false :=
      Nat.testBit_lt_two_pow
        (Nat.lt_of_lt_of_le hm (Nat.pow_le_pow_right (by norm_num) (Nat.le_of_not_lt hj)))
    simp [hmj]

theorem clearBit32_lt (m : Nat) (h0 : m ≠ 0) (hm : m < 2 ^ 32) :
    clearBit32 m (ffs m - 1) < m := by
  refine Nat.lt_of_le_of_ne Nat.and_le_left ?_
  intro he
  have hb := clearBit32_testBit m (ffs m - 1) h0 hm
  rw [he, ffs_testBit m h0] at hb
  simp at hb

/-! ## C10: the XBGR8888 conversion ignores the red component -/

/-- C10: for format `VIDEO_XBGR8888`, `video_rgb_to_pixel32` is
independent of the red component: two colours that differ only in `r`
map to the same 32-bit pixel value (the blue component is used both at
bits 16..23 and in the low byte). -/
theorem video_rgb_to_pixel32_xbgr_ignores_red (le : Bool) (r1 r2 g b : Nat) :
    video_rgb_to_pixel32 le VideoFormat.VIDEO_XBGR8888 ⟨r1, g, b⟩ =
      video_rgb_to_pixel32 le VideoFormat.VIDEO_XBGR8888 ⟨r2, g, b⟩ := rfl

/-! ## C9: the bound framebuffer size uses the horizontal size twice -/

/-- C9: at bind, the reserved framebuffer size is
`SIZE_X * SIZE_X * 4`, not `SIZE_X * SIZE_Y * 4`; whenever the two
configured dimensions differ (and the horizontal size is a real,
nonzero resolution) the reserved size does not match the
width × height × depth geometry reported to the display subsystem. -/
theorem virtio_gpu_bind_size_squared (x y : Nat) :
    (virtio_gpu_bind x y).size = x * x * VNBYTES VIDEO_BPP32 ∧
    (0 < x → x ≠ y →
      (virtio_gpu_bind x y).size ≠ x * y * VNBYTES VIDEO_BPP32) := by
  refine ⟨rfl, ?_⟩
  intro hx hxy he
  have h4 : VNBYTES VIDEO_BPP32 = 4 := by norm_num [VNBYTES, VIDEO_BPP32, Nat.one_shiftLeft]
  rw [virtio_gpu_bind, h4] at he
  have h1 : x * x = x * y := Nat.eq_of_mul_eq_mul_right (by norm_num) he
  exact hxy (Nat.eq_of_mul_eq_mul_left hx h1)

/-- Witness for C9 at the default 1024×768 configuration. -/
theorem virtio_gpu_bind_size_squared_witness :
    (virtio_gpu_bind 1024 768).size = 1024 * 1024 * VNBYTES VIDEO_BPP32 ∧
    (virtio_gpu_bind 1024 768).size ≠ 1024 * 768 * VNBYTES VIDEO_BPP32 :=
  ⟨(virtio_gpu_bind_size_squared 1024 768).1,
   (virtio_gpu_bind_size_squared 1024 768).2 (by decide) (by decide)⟩

/-! ## C8: a response-length mismatch is not fatal -/

/-- C8: when an exchange completes with a byte length different from
the expected response size, the adapter still returns the decoded
response type from the response header (the mismatch is only logged). -/
theorem virtio_gpu_do_req_len_mismatch_nonfatal (priv : GpuPriv) (cmd : Nat)
    (payload : ReqPayload) (inSize outSize : Nat) (flush : Bool) (t len : Nat)
    (hlen : len ≠ outSize) :
    (virtio_gpu_do_req priv cmd payload inSize outSize flush
        (Outcome.complete t len)).1 = Int.ofNat (t % 2 ^ 32) := by
  simp [virtio_gpu_do_req, doReqRet]

/-- Witness for C8: completion length 3 against expected size 24. -/
theorem virtio_gpu_do_req_len_mismatch_nonfatal_witness :
    (3 : Nat) ≠ szCtrlHdr ∧
    (virtio_gpu_do_req gpuPrivInit VIRTIO_GPU_CMD_RESOURCE_FLUSH ReqPayload.hdrOnly
        szResourceFlush szCtrlHdr false (Outcome.complete 7 3)).1 =
      Int.ofNat (7 % 2 ^ 32) :=
  ⟨by decide,
   virtio_gpu_do_req_len_mismatch_nonfatal gpuPrivInit VIRTIO_GPU_CMD_RESOURCE_FLUSH
     ReqPayload.hdrOnly szResourceFlush szCtrlHdr false 7 3 (by decide)⟩

/-! ## C1: a reentrant flush is a no-op success -/

/-- C1: a flush invoked while `in_sync` is already set returns success
immediately, issues no transport requests, and leaves the device state
unchanged. -/
theorem virtio_gpu_video_sync_reentrant_noop (env : SyncEnv) (priv : GpuPriv)
    (h : priv.in_sync = true) :
    virtio_gpu_video_sync env priv = (0, priv, []) := by
  unfold virtio_gpu_video_sync
  simp [h]

/-- Witness for C1 at a busy device state. -/
theorem virtio_gpu_video_sync_reentrant_noop_witness :
    virtio_gpu_video_sync syncEnvOk privBusy = (0, privBusy, []) :=
  virtio_gpu_video_sync_reentrant_noop syncEnvOk privBusy rfl

/-! ## C5: flush error handling -/

/-- C5: for a flush that is not a reentrant no-op: an unexpected
TRANSFER_TO_HOST_2D response type clears `in_sync`, returns `-EINVAL`,
and the RESOURCE_FLUSH exchange is not attempted; an unexpected
RESOURCE_FLUSH response (after a successful transfer) clears `in_sync`
and returns `-EINVAL`; and when both exchanges answer OK_NODATA the
flush clears `in_sync` and returns success. -/
theorem virtio_gpu_video_sync_error_paths (env : SyncEnv) (priv : GpuPriv)
    (h : priv.in_sync = false) :
    (∀ t l, env.transferOut = Outcome.complete t l →
        t % 2 ^ 32 ≠ VIRTIO_GPU_RESP_OK_NODATA →
        (virtio_gpu_video_sync env priv).1 = -EINVAL ∧
        (virtio_gpu_video_sync env priv).2.1.in_sync = false ∧
        ∀ r ∈ (virtio_gpu_video_sync env priv).2.2,
          r.cmd ≠ VIRTIO_GPU_CMD_RESOURCE_FLUSH) ∧
    (∀ t1 l1 t2 l2, env.transferOut = Outcome.complete t1 l1 →
        t1 % 2 ^ 32 = VIRTIO_GPU_RESP_OK_NODATA →
        env.flushOut = Outcome.complete t2 l2 →
        t2 % 2 ^ 32 ≠ VIRTIO_GPU_RESP_OK_NODATA →
        (virtio_gpu_video_sync env priv).1 = -EINVAL ∧
        (virtio_gpu_video_sync env priv).2.1.in_sync = false) ∧
    (∀ t1 l1 t2 l2, env.transferOut = Outcome.complete t1 l1 →
        t1 % 2 ^ 32 = VIRTIO_GPU_RESP_OK_NODATA →
        env.flushOut = Outcome.complete t2 l2 →
        t2 % 2 ^ 32 = VIRTIO_GPU_RESP_OK_NODATA →
        (virtio_gpu_video_sync env priv).1 = 0 ∧
        (virtio_gpu_video_sync env priv).2.1.in_sync = false) := by
  refine ⟨?_, ?_, ?_⟩
  · intro t l ht hne
    have hcond : Int.ofNat (t % 2 ^ 32) ≠ Int.ofNat VIRTIO_GPU_RESP_OK_NODATA :=
      fun hc => hne (Int.ofNat.inj hc)
    simp only [virtio_gpu_video_sync, virtio_gpu_do_req, doReqRet, h, ht,
      Bool.false_eq_true, if_false, if_pos hcond]
    refine ⟨trivial, trivial, ?_⟩
    intro r hr
    simp only [List.mem_singleton] at hr
    subst hr
    simp [VIRTIO_GPU_CMD_TRANSFER_TO_HOST_2D, VIRTIO_GPU_CMD_RESOURCE_FLUSH]
  · intro t1 l1 t2 l2 ht1 he1 ht2 hne2
    have hc1 : ¬ (Int.ofNat (t1 % 2 ^ 32) ≠ Int.ofNat VIRTIO_GPU_RESP_OK_NODATA) :=
      not_not_intro (congrArg Int.ofNat he1)
    have hc2 : Int.ofNat (t2 % 2 ^ 32) ≠ Int.ofNat VIRTIO_GPU_RESP_OK_NODATA :=
      fun hc => hne2 (Int.ofNat.inj hc)
    simp only [virtio_gpu_video_sync, virtio_gpu_do_req, doReqRet, h, ht1, ht2,
      Bool.false_eq_true, if_false, if_neg hc1, if_pos hc2]
    exact ⟨trivial, trivial⟩
  · intro t1 l1 t2 l2 ht1 he1 ht2 he2
    have hc1 : ¬ (Int.ofNat (t1 % 2 ^ 32) ≠ Int.ofNat VIRTIO_GPU_RESP_OK_NODATA) :=
      not_not_intro (congrArg Int.ofNat he1)
    have hc2 : ¬ (Int.ofNat (t2 % 2 ^ 32) ≠ Int.ofNat VIRTIO_GPU_RESP_OK_NODATA) :=
      not_not_intro (congrArg Int.ofNat he2)
    simp only [virtio_gpu_video_sync, virtio_gpu_do_req, doReqRet, h, ht1, ht2,
      Bool.false_eq_true, if_false, if_neg hc1, if_neg hc2]
    exact ⟨trivial, trivial⟩

/-- Witness for C5: a failing TRANSFER_TO_HOST_2D on an idle device. -/
theorem virtio_gpu_video_sync_error_paths_witness :
    (virtio_gpu_video_sync syncEnvTransferFail privIdle).1 = -EINVAL ∧
    (virtio_gpu_video_sync syncEnvTransferFail privIdle).2.1.in_sync = false :=
  ⟨((virtio_gpu_video_sync_error_paths syncEnvTransferFail privIdle rfl).1
      0x1200 szCtrlHdr rfl (by decide)).1,
   ((virtio_gpu_video_sync_error_paths syncEnvTransferFail privIdle rfl).1
      0x1200 szCtrlHdr rfl (by decide)).2.1⟩

/-! ## C2: fence ids of fenced requests strictly increase -/

theorem fenceIds_runCalls_no_flush (cs : List Call) :
    ∀ priv : GpuPriv, cs.countP (fun c => c.flush) = 0 →
      fenceIds (runCalls priv cs).2 = [] := by
  induction cs with
  | nil => intro priv _; simp [runCalls, fenceIds]
  | cons c cs ih =>
    intro priv hc
    rw [List.countP_cons] at hc
    by_cases hf : c.flush
    · simp [hf] at hc
    · have hcs : cs.countP (fun c => c.flush) = 0 := by
        simpa [hf] using hc
      simp only [runCalls, virtio_gpu_do_req, hf, Bool.false_eq_true, if_false]
      simp only [fenceIds, List.filter]
      simp only [decide_not, ne_eq, decide_True, Bool.not_true, Bool.not_not]
      have := ih priv hcs
      simpa [fenceIds] using this

theorem fenceIds_runCalls (cs : List Call) :
    ∀ priv : GpuPriv, priv.fence_id + cs.countP (fun c => c.flush) ≤ 2 ^ 64 →
      fenceIds (runCalls priv cs).2 =
        List.range' priv.fence_id (cs.countP fun c => c.flush) := by
  induction cs with
  | nil => intro priv _; simp [runCalls, fenceIds]
  | cons c cs ih =>
    intro priv hb
    rw [List.countP_cons] at hb ⊢
    by_cases hf : c.flush
    · simp only [hf, decide_True, if_true] at hb ⊢
      rw [List.range'_succ]
      simp only [runCalls, virtio_gpu_do_req, hf, if_true]
      have hcons : fenceIds
          (({ cmd := c.cmd, flags := VIRTIO_GPU_FLAG_FENCE, fence_id := priv.fence_id,
              ctx_id := 0, ring_idx := 0, payload := c.payload,
              issued := issuedOf c.out } : Req) ::
            (runCalls { priv with fence_id := (priv.fence_id + 1) % 2 ^ 64 } cs).2) =
          priv.fence_id ::
            fenceIds (runCalls { priv with fence_id := (priv.fence_id + 1) % 2 ^ 64 } cs).2 := by
        simp [fenceIds, VIRTIO_GPU_FLAG_FENCE]
      rw [hcons]
      by_cases hlt : priv.fence_id + 1 < 2 ^ 64
      · have hmod : (priv.fence_id + 1) % 2 ^ 64 = priv.fence_id + 1 :=
          Nat.mod_eq_of_lt hlt
        have hb' : ({ priv with fence_id := (priv.fence_id + 1) % 2 ^ 64 } :
            GpuPriv).fence_id + cs.countP (fun c => c.flush) ≤ 2 ^ 64 := by
          simp only [hmod]; omega
        have hrec := ih { priv with fence_id := (priv.fence_id + 1) % 2 ^ 64 } hb'
        rw [hrec]
        simp only [hmod]
      · have hz : cs.countP (fun c => c.flush) = 0 := by omega
        rw [fenceIds_runCalls_no_flush cs _ hz, hz]
        simp
    · simp only [hf, decide_False, if_false] at hb ⊢
      simp only [runCalls, virtio_gpu_do_req, hf, Bool.false_eq_true, if_false]
      have hskip : fenceIds
          (({ cmd := c.cmd, flags := 0, fence_id := 0, ctx_id := 0, ring_idx := 0,
              payload := c.payload, issued := issuedOf c.out } : Req) ::
            (runCalls priv cs).2) = fenceIds (runCalls priv cs).2 := by
        simp [fenceIds]
      rw [hskip]
      exact ih priv hb

theorem runCalls_pointwise (cs : List Call) :
    ∀ priv : GpuPriv,
      List.Forall₂ (fun c r =>
        (c.flush = false → r.flags = 0 ∧ r.fence_id = 0) ∧
        (c.flush = true → r.flags = VIRTIO_GPU_FLAG_FENCE)) cs (runCalls priv cs).2 := by
  induction cs with
  | nil => intro priv; exact List.Forall₂.nil
  | cons c cs ih =>
    intro priv
    simp only [runCalls]
    refine List.Forall₂.cons ⟨?_, ?_⟩ (ih _)
    · intro hf; simp [virtio_gpu_do_req, hf]
    · intro hf; simp [virtio_gpu_do_req, hf]

theorem chain'_lt_range' (s n : Nat) : List.Chain' (· < ·) (List.range' s n) := by
  cases n with
  | zero => simp
  | succ k =>
    rw [List.range'_succ]
    exact List.chain_lt_range' s k (by decide)

/-- C2: over any sequence of adapter calls on one device instance whose
fenced calls do not exhaust the u64 fence space, the fence ids assigned
to successive fenced requests strictly increase, while every non-fenced
request carries `flags = 0` and `fence_id = 0` (and every fenced
request carries the fence flag). -/
theorem virtio_gpu_do_req_fence_monotone (cs : List Call) (priv : GpuPriv)
    (hwrap : priv.fence_id + cs.countP (fun c => c.flush) ≤ 2 ^ 64) :
    List.Chain' (· < ·) (fenceIds (runCalls priv cs).2) ∧
    List.Forall₂ (fun c r =>
      (c.flush = false → r.flags = 0 ∧ r.fence_id = 0) ∧
      (c.flush = true → r.flags = VIRTIO_GPU_FLAG_FENCE)) cs (runCalls priv cs).2 := by
  refine ⟨?_, runCalls_pointwise cs priv⟩
  rw [fenceIds_runCalls cs priv hwrap]
  exact chain'_lt_range' _ _

/-- Witness for C2: a fenced/unfenced/fenced call sequence from the
initial device state. -/
theorem virtio_gpu_do_req_fence_monotone_witness :
    gpuPrivInit.fence_id + callsW.countP (fun c => c.flush) ≤ 2 ^ 64 ∧
    List.Chain' (· < ·) (fenceIds (runCalls gpuPrivInit callsW).2) :=
  ⟨by decide, (virtio_gpu_do_req_fence_monotone callsW gpuPrivInit (by decide)).1⟩

/-! ## Loop and probe trace lemmas -/

theorem doReqRet_ok_nodata (o : Outcome) (l : Nat)
    (h : o = Outcome.complete VIRTIO_GPU_RESP_OK_NODATA l) :
    doReqRet o = Int.ofNat VIRTIO_GPU_RESP_OK_NODATA := by
  rw [h]
  simp only [doReqRet]
  exact congrArg Int.ofNat (Nat.mod_eq_of_lt (by norm_num [VIRTIO_GPU_RESP_OK_NODATA]))

theorem doReqRet_ok_display (o : Outcome) (l : Nat)
    (h : o = Outcome.complete VIRTIO_GPU_RESP_OK_DISPLAY_INFO l) :
    doReqRet o = Int.ofNat VIRTIO_GPU_RESP_OK_DISPLAY_INFO := by
  rw [h]
  simp only [doReqRet]
  exact congrArg Int.ofNat (Nat.mod_eq_of_lt (by norm_num [VIRTIO_GPU_RESP_OK_DISPLAY_INFO]))

theorem scanoutLoop_priv (env : ProbeEnv) :
    ∀ mask, ∀ (hm : mask < 2 ^ 32) (priv : GpuPriv),
      (scanoutLoop env priv mask hm).2.1 = priv := by
  intro mask
  induction mask using Nat.strong_induction_on with
  | _ mask ih =>
    intro hm priv
    by_cases h0 : mask = 0
    · subst h0
      rw [scanoutLoop]
      simp
    · rw [scanoutLoop, dif_neg h0]
      simp only [virtio_gpu_do_req, Bool.false_eq_true, if_false]
      split
      · rfl
      · exact ih (clearBit32 mask (ffs mask - 1)) (clearBit32_lt mask h0 hm)
          (Nat.lt_of_le_of_lt Nat.and_le_left hm) priv

theorem scanoutLoop_counts (env : ProbeEnv) (b : Buf) :
    ∀ mask, ∀ (hm : mask < 2 ^ 32) (priv : GpuPriv),
      allocCount b (scanoutLoop env priv mask hm).2.2 = 0 ∧
      freeCount b (scanoutLoop env priv mask hm).2.2 = 0 := by
  intro mask
  induction mask using Nat.strong_induction_on with
  | _ mask ih =>
    intro hm priv
    by_cases h0 : mask = 0
    · subst h0
      rw [scanoutLoop]
      simp [allocCount, freeCount]
    · rw [scanoutLoop, dif_neg h0]
      simp only [virtio_gpu_do_req, Bool.false_eq_true, if_false]
      split
      · simp [allocCount, freeCount]
      · have hrec := ih (clearBit32 mask (ffs mask - 1)) (clearBit32_lt mask h0 hm)
          (Nat.lt_of_le_of_lt Nat.and_le_left hm) priv
        simp [allocCount, freeCount, hrec.1, hrec.2]

theorem scanoutLoop_allocCount (env : ProbeEnv) (b : Buf) (mask : Nat)
    (hm : mask < 2 ^ 32) (priv : GpuPriv) :
    allocCount b (scanoutLoop env priv mask hm).2.2 = 0 :=
  (scanoutLoop_counts env b mask hm priv).1

theorem scanoutLoop_freeCount (env : ProbeEnv) (b : Buf) (mask : Nat)
    (hm : mask < 2 ^ 32) (priv : GpuPriv) :
    freeCount b (scanoutLoop env priv mask hm).2.2 = 0 :=
  (scanoutLoop_counts env b mask hm priv).2

theorem allocCount_append (b : Buf) (l1 l2 : List Ev) :
    allocCount b (l1 ++ l2) = allocCount b l1 + allocCount b l2 := by
  induction l1 with
  | nil => simp [allocCount]
  | cons e es ih => cases e <;> simp [allocCount, ih, Nat.add_assoc]

theorem freeCount_append (b : Buf) (l1 l2 : List Ev) :
    freeCount b (l1 ++ l2) = freeCount b l1 + freeCount b l2 := by
  induction l1 with
  | nil => simp [freeCount]
  | cons e es ih => cases e <;> simp [freeCount, ih, Nat.add_assoc]

theorem virtio_gpu_probe_balanced (env : ProbeEnv) (priv : GpuPriv) (b : Buf) :
    allocCount b (virtio_gpu_probe env priv).2.2 =
      freeCount b (virtio_gpu_probe env priv).2.2 := by
  unfold virtio_gpu_probe
  by_cases h1 : env.platBase = 0
  · simp [h1, allocCount, freeCount]
  · rw [if_neg h1]
    by_cases h2 : env.findVqsRet < 0
    · simp [h2, allocCount, freeCount]
    · rw [if_neg h2]
      simp only [virtio_gpu_do_req, Bool.false_eq_true, if_false]
      split
      · cases b <;> simp [allocCount, freeCount, allocCount_append, freeCount_append]
      · split
        · cases b <;> simp [allocCount, freeCount, allocCount_append, freeCount_append]
        · split
          · cases b <;> simp [allocCount, freeCount, allocCount_append, freeCount_append]
          · split
            · cases b <;> simp [allocCount, freeCount, allocCount_append, freeCount_append]
            · cases b <;>
                simp [allocCount, freeCount, allocCount_append, freeCount_append,
                  scanoutLoop_allocCount, scanoutLoop_freeCount]

/-! ## C7: no buffer is leaked on any error path of bring-up -/

/-- C7: on every failing bring-up attempt, every request buffer
allocated by prior steps has been released before the error is
returned: for each buffer the number of releases in the trace equals
the number of allocations. -/
theorem virtio_gpu_probe_no_leak (env : ProbeEnv) (priv : GpuPriv)
    (hfail : (virtio_gpu_probe env priv).1 ≠ 0) :
    ∀ b, allocCount b (virtio_gpu_probe env priv).2.2 =
      freeCount b (virtio_gpu_probe env priv).2.2 :=
  fun b => virtio_gpu_probe_balanced env priv b

/-- Witness for C7: the run where RESOURCE_CREATE_2D answers with an
error type. -/
theorem virtio_gpu_probe_no_leak_witness :
    (virtio_gpu_probe envCreateFail gpuPrivInit).1 ≠ 0 ∧
    allocCount Buf.resCreate2d (virtio_gpu_probe envCreateFail gpuPrivInit).2.2 =
      freeCount Buf.resCreate2d (virtio_gpu_probe envCreateFail gpuPrivInit).2.2 :=
  ⟨by decide,
   virtio_gpu_probe_no_leak envCreateFail gpuPrivInit (by decide) Buf.resCreate2d⟩

/-! ## C6: lifecycle of the stored scanout resource id -/

/-- Counterexample to C6 as stated: a bring-up that fails at the
RESOURCE_CREATE_2D step returns an error, yet the stored scanout
resource id is already 1, not 0 (the driver stores it before issuing
the request). -/
theorem virtio_gpu_scanout_res_id_counterexample :
    (virtio_gpu_probe envCreateFail gpuPrivInit).1 ≠ 0 ∧
    (virtio_gpu_probe envCreateFail gpuPrivInit).2.1.scanout_res_id = 1 :=
  ⟨by decide, by decide⟩

/-- C6 (amended): starting from the zero-initialised state, the stored
scanout resource id after bring-up is 1 exactly when the run reaches
the RESOURCE_CREATE_2D step (it is stored just before the request is
issued, so it is 1 even if that or any later step fails), and 0 when
bring-up fails earlier; flush never modifies it. -/
theorem virtio_gpu_scanout_res_id_lifecycle (env : ProbeEnv) (senv : SyncEnv)
    (priv : GpuPriv) :
    (virtio_gpu_probe env gpuPrivInit).2.1.scanout_res_id =
      (if reachesCreate env then 1 else 0) ∧
    (virtio_gpu_video_sync senv priv).2.1.scanout_res_id = priv.scanout_res_id := by
  constructor
  · unfold virtio_gpu_probe
    by_cases h1 : env.platBase = 0
    · have hrc : reachesCreate env = false := by simp [reachesCreate, h1]
      simp [h1, hrc, gpuPrivInit]
    · rw [if_neg h1]
      by_cases h2 : env.findVqsRet < 0
      · have hrc : reachesCreate env = false := by simp [reachesCreate, h2]
        simp [h2, hrc, gpuPrivInit]
      · rw [if_neg h2]
        simp only [virtio_gpu_do_req, Bool.false_eq_true, if_false]
        by_cases h3 : doReqRet env.dispOut = Int.ofNat VIRTIO_GPU_RESP_OK_DISPLAY_INFO
        · rw [if_neg (not_not_intro h3)]
          by_cases h4 : maskOf env.enabled = 0
          · have hrc : reachesCreate env = false := by simp [reachesCreate, h4]
            simp [h4, hrc, gpuPrivInit]
          · rw [if_neg h4]
            have hrc : reachesCreate env = true := by
              simp [reachesCreate, h1, h2, h3, h4]
            have hone : (if reachesCreate env then (1 : Nat) else 0) = 1 := by
              simp [hrc]
            rw [hone]
            split
            · simp
            · split
              · simp
              · simp [scanoutLoop_priv]
        · rw [if_pos h3]
          have hC : decide (doReqRet env.dispOut =
              Int.ofNat VIRTIO_GPU_RESP_OK_DISPLAY_INFO) = false := decide_eq_false h3
          have hrc : reachesCreate env = false := by
            unfold reachesCreate
            rw [hC]
            simp
          simp [hrc, gpuPrivInit]
  · unfold virtio_gpu_video_sync
    by_cases h : priv.in_sync
    · simp [h]
    · simp only [h, Bool.false_eq_true, if_false, virtio_gpu_do_req]
      split
      · simp
      · split
        · simp
        · simp

/-! ## C3: no enabled scanout means ConfigurationError, no create -/

/-- C3: whenever the GET_DISPLAY_INFO exchange completes with an
OK_DISPLAY_INFO response in which no scanout descriptor is enabled,
bring-up fails with `-EINVAL` and no RESOURCE_CREATE_2D request appears
in the trace. -/
theorem virtio_gpu_probe_no_scanout_fails (env : ProbeEnv) (dl : Nat)
    (hbase : env.platBase ≠ 0) (hvq : ¬ env.findVqsRet < 0)
    (hdisp : env.dispOut = Outcome.complete VIRTIO_GPU_RESP_OK_DISPLAY_INFO dl)
    (hnone : ∀ i, i < VIRTIO_GPU_MAX_SCANOUTS → env.enabled i = false) :
    (virtio_gpu_probe env gpuPrivInit).1 = -EINVAL ∧
    ∀ r, Ev.req r ∈ (virtio_gpu_probe env gpuPrivInit).2.2 →
      r.cmd ≠ VIRTIO_GPU_CMD_RESOURCE_CREATE_2D := by
  have hmask : maskOf env.enabled = 0 := maskOf_eq_zero env.enabled hnone
  have hdr : doReqRet env.dispOut = Int.ofNat VIRTIO_GPU_RESP_OK_DISPLAY_INFO :=
    doReqRet_ok_display env.dispOut dl hdisp
  unfold virtio_gpu_probe
  rw [if_neg hbase, if_neg hvq]
  simp only [virtio_gpu_do_req, Bool.false_eq_true, if_false]
  rw [if_neg (not_not_intro hdr), if_pos hmask]
  refine ⟨rfl, ?_⟩
  intro r hr
  simp only [List.cons_append, List.nil_append, List.mem_cons, List.not_mem_nil,
    or_false] at hr
  rcases hr with h | h | h
  · exact absurd h (by simp)
  · rw [Ev.req.inj h]
    simp [VIRTIO_GPU_CMD_GET_DISPLAY_INFO, VIRTIO_GPU_CMD_RESOURCE_CREATE_2D]
  · exact absurd h (by simp)

/-- Witness for C3: a display-info response with all descriptors
disabled. -/
theorem virtio_gpu_probe_no_scanout_fails_witness :
    (virtio_gpu_probe envNoScanout gpuPrivInit).1 = -EINVAL :=
  (virtio_gpu_probe_no_scanout_fails envNoScanout szRespDisplayInfo (by decide)
    (by decide) rfl (fun _ _ => rfl)).1

/-! ## C4: the SET_SCANOUT loop over the enabled-scanout bitmask -/

theorem scanoutLoop_ok (env : ProbeEnv)
    (hscan : ∀ i, ∃ l, env.scanoutOut i = Outcome.complete VIRTIO_GPU_RESP_OK_NODATA l) :
    ∀ mask, ∀ (hm : mask < 2 ^ 32) (priv : GpuPriv),
      (scanoutLoop env priv mask hm).1 = 0 ∧
      (∀ r, Ev.req r ∈ (scanoutLoop env priv mask hm).2.2 →
          ∃ i, r = mkSetScanoutReq env priv i) ∧
      List.Pairwise (· < ·) (setScanoutIds (scanoutLoop env priv mask hm).2.2) ∧
      (∀ j, j ∈ setScanoutIds (scanoutLoop env priv mask hm).2.2 ↔
          mask.testBit j = true) := by
  intro mask
  induction mask using Nat.strong_induction_on with
  | _ mask ih =>
    intro hm priv
    by_cases h0 : mask = 0
    · subst h0
      rw [scanoutLoop]
      simp [setScanoutIds, Nat.zero_testBit]
    · obtain ⟨l, hl⟩ := hscan (ffs mask - 1)
      have hok : doReqRet (env.scanoutOut (ffs mask - 1)) =
          Int.ofNat VIRTIO_GPU_RESP_OK_NODATA := doReqRet_ok_nodata _ l hl
      have hm' : clearBit32 mask (ffs mask - 1) < 2 ^ 32 :=
        Nat.lt_of_le_of_lt Nat.and_le_left hm
      have hrec := ih (clearBit32 mask (ffs mask - 1)) (clearBit32_lt mask h0 hm) hm' priv
      have h1 : (scanoutLoop env priv mask hm).1 =
          (scanoutLoop env priv (clearBit32 mask (ffs mask - 1)) hm').1 := by
        rw [scanoutLoop, dif_neg h0]
        simp only [virtio_gpu_do_req, Bool.false_eq_true, if_false]
        rw [if_neg (not_not_intro hok)]
      have h22 : (scanoutLoop env priv mask hm).2.2 =
          Ev.req (mkSetScanoutReq env priv (ffs mask - 1)) ::
            (scanoutLoop env priv (clearBit32 mask (ffs mask - 1)) hm').2.2 := by
        rw [scanoutLoop, dif_neg h0]
        simp only [virtio_gpu_do_req, Bool.false_eq_true, if_false]
        rw [if_neg (not_not_intro hok)]
        simp [mkSetScanoutReq, hl, issuedOf]
      have hids : setScanoutIds (scanoutLoop env priv mask hm).2.2 =
          (ffs mask - 1) ::
            setScanoutIds (scanoutLoop env priv (clearBit32 mask (ffs mask - 1)) hm').2.2 := by
        rw [h22]
        simp [setScanoutIds, mkSetScanoutReq]
      refine ⟨?_, ?_, ?_, ?_⟩
      · rw [h1]; exact hrec.1
      · intro r hr
        rw [h22] at hr
        rcases List.mem_cons.mp hr with h | h
        · exact ⟨ffs mask - 1, Ev.req.inj h⟩
        · exact hrec.2.1 r h
      · rw [hids]
        refine List.Pairwise.cons ?_ hrec.2.2.1
        intro x hx
        have hxb := (hrec.2.2.2 x).mp hx
        rw [clearBit32_testBit mask x h0 hm] at hxb
        have hxb' : mask.testBit x = true ∧ ¬ x = ffs mask - 1 := by simpa using hxb
        have hxm : mask.testBit x = true := hxb'.1
        have hxne : x ≠ ffs mask - 1 := hxb'.2
        by_contra hcon
        have hxle : x ≤ ffs mask - 1 := Nat.le_of_not_lt hcon
        have hxlt : x < ffs mask - 1 := Nat.lt_of_le_of_ne hxle hxne
        rw [ffs_min mask x h0 hxlt] at hxm
        exact Bool.false_ne_true hxm
      · intro j
        rw [hids]
        constructor
        · intro hj
          rcases List.mem_cons.mp hj with h | h
          · rw [h]; exact ffs_testBit mask h0
          · have hjb := (hrec.2.2.2 j).mp h
            rw [clearBit32_testBit mask j h0 hm] at hjb
            have hjb' : mask.testBit j = true ∧ ¬ j = ffs mask - 1 := by simpa using hjb
            exact hjb'.1
        · intro hj
          by_cases hje : j = ffs mask - 1
          · rw [hje]; exact List.mem_cons_self _ _
          · refine List.mem_cons_of_mem _ ((hrec.2.2.2 j).mpr ?_)
            rw [clearBit32_testBit mask j h0 hm, hj]
            simp [hje]

/-- C4: for a GET_DISPLAY_INFO response with at least one enabled
scanout and every subsequent response OK, bring-up succeeds, the
derived bitmask is exactly the set of enabled scanout indices, the
SET_SCANOUT requests carry each enabled index exactly once in strictly
ascending order, and every SET_SCANOUT request binds the full-screen
rectangle and the created resource id 1 to its index. -/
theorem virtio_gpu_probe_scanout_binding (env : ProbeEnv) (dl cl al : Nat)
    (hbase : env.platBase ≠ 0) (hvq : ¬ env.findVqsRet < 0)
    (hdisp : env.dispOut = Outcome.complete VIRTIO_GPU_RESP_OK_DISPLAY_INFO dl)
    (hcreate : env.createOut = Outcome.complete VIRTIO_GPU_RESP_OK_NODATA cl)
    (hattach : env.attachOut = Outcome.complete VIRTIO_GPU_RESP_OK_NODATA al)
    (hscan : ∀ i, ∃ l, env.scanoutOut i = Outcome.complete VIRTIO_GPU_RESP_OK_NODATA l)
    (hsome : ∃ i, i < VIRTIO_GPU_MAX_SCANOUTS ∧ env.enabled i = true) :
    (virtio_gpu_probe env gpuPrivInit).1 = 0 ∧
    (∀ j, (maskOf env.enabled).testBit j = true ↔
        (j < VIRTIO_GPU_MAX_SCANOUTS ∧ env.enabled j = true)) ∧
    List.Pairwise (· < ·) (setScanoutIds (virtio_gpu_probe env gpuPrivInit).2.2) ∧
    (∀ j, j ∈ setScanoutIds (virtio_gpu_probe env gpuPrivInit).2.2 ↔
        (j < VIRTIO_GPU_MAX_SCANOUTS ∧ env.enabled j = true)) ∧
    (∀ r rct sid rid, Ev.req r ∈ (virtio_gpu_probe env gpuPrivInit).2.2 →
        r.payload = ReqPayload.setScanout rct sid rid →
        rct = ⟨0, 0, env.cfgX, env.cfgY⟩ ∧ rid = 1) := by
  have hmask0 : maskOf env.enabled ≠ 0 := maskOf_ne_zero env.enabled hsome
  have hd := doReqRet_ok_display env.dispOut dl hdisp
  have hc := doReqRet_ok_nodata env.createOut cl hcreate
  have ha := doReqRet_ok_nodata env.attachOut al hattach
  have hrun : virtio_gpu_probe env gpuPrivInit =
      ((scanoutLoop env privIdle (maskOf env.enabled) (maskOf_lt_two_pow env.enabled)).1,
       (scanoutLoop env privIdle (maskOf env.enabled) (maskOf_lt_two_pow env.enabled)).2.1,
       preEvs env ++ [Ev.alloc Buf.setScanout] ++
         (scanoutLoop env privIdle (maskOf env.enabled)
           (maskOf_lt_two_pow env.enabled)).2.2 ++
         [Ev.free Buf.setScanout]) := by
    unfold virtio_gpu_probe
    rw [if_neg hbase, if_neg hvq]
    simp only [virtio_gpu_do_req, Bool.false_eq_true, if_false]
    rw [if_neg (not_not_intro hd), if_neg hmask0, if_neg (not_not_intro hc),
      if_neg (not_not_intro ha)]
    simp [preEvs, gpuPrivInit, privIdle]
  have hrun1 : (virtio_gpu_probe env gpuPrivInit).1 =
      (scanoutLoop env privIdle (maskOf env.enabled) (maskOf_lt_two_pow env.enabled)).1 := by
    rw [hrun]
  have hrun3 : (virtio_gpu_probe env gpuPrivInit).2.2 =
      preEvs env ++ [Ev.alloc Buf.setScanout] ++
        (scanoutLoop env privIdle (maskOf env.enabled)
          (maskOf_lt_two_pow env.enabled)).2.2 ++
        [Ev.free Buf.setScanout] := by
    rw [hrun]
  have hlp := scanoutLoop_ok env hscan (maskOf env.enabled)
    (maskOf_lt_two_pow env.enabled) privIdle
  have hpre : setScanoutIds (preEvs env ++ [Ev.alloc Buf.setScanout] ++
      (scanoutLoop env privIdle (maskOf env.enabled)
        (maskOf_lt_two_pow env.enabled)).2.2 ++
      [Ev.free Buf.setScanout]) =
      setScanoutIds (scanoutLoop env privIdle (maskOf env.enabled)
        (maskOf_lt_two_pow env.enabled)).2.2 := by
    simp [setScanoutIds, preEvs, List.filterMap_append]
  have hmaskbit : ∀ j, (maskOf env.enabled).testBit j = true ↔
      (j < VIRTIO_GPU_MAX_SCANOUTS ∧ env.enabled j = true) := by
    intro j
    rw [maskOf_testBit]
    simp
  refine ⟨?_, hmaskbit, ?_, ?_, ?_⟩
  · rw [hrun1]; exact hlp.1
  · rw [hrun3, hpre]; exact hlp.2.2.1
  · intro j
    rw [hrun3, hpre, hlp.2.2.2 j]
    exact hmaskbit j
  · intro r rct sid rid hr hp
    rw [hrun3] at hr
    simp only [preEvs, List.append_assoc, List.cons_append, List.nil_append,
      List.mem_cons, List.mem_append, List.mem_singleton] at hr
    rcases hr with h | h | h | h | h | h | h | h | h | h | h | h
    · exact absurd h (by simp)
    · rw [Ev.req.inj h] at hp; exact absurd hp (by simp)
    · exact absurd h (by simp)
    · exact absurd h (by simp)
    · rw [Ev.req.inj h] at hp; exact absurd hp (by simp)
    · exact absurd h (by simp)
    · exact absurd h (by simp)
    · rw [Ev.req.inj h] at hp; exact absurd hp (by simp)
    · exact absurd h (by simp)
    · exact absurd h (by simp)
    · obtain ⟨i, hi⟩ := hlp.2.1 r h
      rw [hi] at hp
      simp only [mkSetScanoutReq, privIdle] at hp
      have hinj := ReqPayload.setScanout.inj hp
      exact ⟨hinj.1.symm, hinj.2.2.symm⟩
    · exact absurd h (by simp)

/-- Witness for C4: bring-up with exactly scanout 0 enabled and every
response OK succeeds. -/
theorem virtio_gpu_probe_scanout_binding_witness :
    (virtio_gpu_probe envAllOk gpuPrivInit).1 = 0 :=
  (virtio_gpu_probe_scanout_binding envAllOk szRespDisplayInfo szCtrlHdr szCtrlHdr
    (by decide) (by decide) rfl rfl rfl (fun _ => ⟨szCtrlHdr, rfl⟩)
    ⟨0, by decide, rfl⟩).1
